import Mathlib

/-!
Verification of the message-filter and mailbox layer of
`autogpt/core/runner/server.py`.

The file embeds, as executable Lean definitions:
  * the dynamic (Python) value and error model needed by the filter
    predicates, which mix booleans, strings, bitwise operators and
    dictionary subscripts;
  * the data model (`Role`, `Sender`, `Message`) — modelled from the spec,
    since `autogpt.core.messaging.simple` is not part of the sources;
  * the `MessageFilters` predicates, transliterated from the source with
    Python operator precedence kept intact (in `a & b == c` the `&` binds
    tighter than `==`, and `bool & str` raises `TypeError`);
  * the per-sender mailbox (`FakeApplicationServer.message_queue`, a
    `defaultdict(list)` class attribute), its append listener
    `_add_to_queue`, the drain idiom of `boostrap_new_agent`, and the
    `list.pop()` idiom of `give_agent_feedback`;
  * a broker/emitter model, modelled from the spec, for the end-to-end
    send/drain scenario.
-/

namespace AutoGPT

/-- Python runtime errors that the embedded code can raise. -/
inductive PyErr where
  | keyError (k : String)
  | typeError
  | indexError
deriving DecidableEq, Repr

/-- Dynamic values appearing in message content and metadata dictionaries:
the source only ever stores booleans (filter results) and strings. -/
inductive PyVal where
  | bool (b : Bool)
  | str (s : String)
deriving DecidableEq, Repr

/-- Python bitwise `&`: defined on a pair of booleans; a string operand has
no `__and__`/`__rand__`, so the operation raises `TypeError`. -/
def pyAnd : PyVal → PyVal → Except PyErr PyVal
  | .bool a, .bool b => .ok (.bool (a && b))
  | _, _ => .error .typeError

/-- Python `==`: compares values of the same type; values of different
types compare unequal (no error). -/
def pyEq : PyVal → PyVal → PyVal
  | .bool a, .bool b => .bool (a == b)
  | .str a, .str b => .bool (a == b)
  | _, _ => .bool false

/-- Association-list lookup (first binding wins), the functional model of a
Python dict read. -/
def alGet {α β : Type} [DecidableEq α] : List (α × β) → α → Option β
  | [], _ => none
  | (k, v) :: rest, key => if k = key then some v else alGet rest key

/-- Association-list update/insert, the functional model of a Python dict
item assignment. -/
def alSet {α β : Type} [DecidableEq α] : List (α × β) → α → β → List (α × β)
  | [], key, val => [(key, val)]
  | (k, v) :: rest, key, val =>
      if k = key then (key, val) :: rest else (k, v) :: alSet rest key val

/-- Python dict subscript `d[k]`: raises `KeyError` when the key is absent. -/
def pySubscript (d : List (String × PyVal)) (k : String) : Except PyErr PyVal :=
  match alGet d k with
  | some v => .ok v
  | none => .error (.keyError k)

/-- Modelled from the spec: `Role` of `autogpt.core.messaging.simple`
(not under the sources) — the closed sender-category enumeration. -/
inductive Role where
  | USER
  | AGENT
  | AGENT_FACTORY
deriving DecidableEq, Repr

/-- Modelled from the spec: `SenderIdentity` — a sender name plus role. -/
structure Sender where
  name : String
  role : Role
deriving DecidableEq, Repr

/-- Modelled from the spec: message metadata — the sender identity plus the
arbitrary string-keyed `additional_metadata` mapping. -/
structure MessageMetadata where
  sender : Sender
  additional_metadata : List (String × PyVal)
deriving DecidableEq, Repr

/-- Modelled from the spec: `Message` of `autogpt.core.messaging.simple` —
a content mapping plus metadata. -/
structure Message where
  content : List (String × PyVal)
  metadata : MessageMetadata
deriving DecidableEq, Repr

/-- Embeds `MessageFilters.is_user_message` (server.py lines 18-21). -/
def is_user_message (m : Message) : Bool :=
  m.metadata.sender.role == Role.USER

/-- Embeds `MessageFilters.is_agent_message` (server.py lines 23-26). -/
def is_agent_message (m : Message) : Bool :=
  m.metadata.sender.role == Role.AGENT

/-- Embeds `MessageFilters.is_agent_factory_message` (server.py lines 28-31). -/
def is_agent_factory_message (m : Message) : Bool :=
  m.metadata.sender.role == Role.AGENT_FACTORY

/-- Embeds `MessageFilters.is_server_message` (server.py lines 33-37): the Python
`|` of two booleans, which is boolean disjunction. -/
def is_server_message (m : Message) : Bool :=
  is_agent_message m || is_agent_factory_message m

/-- Embeds `MessageFilters.is_user_bootstrap_message` (server.py lines 39-46).
Python parses the body as
`(is_user_message(message) & additional_metadata["instruction"]) == "bootstrap_agent"`
because `&` binds tighter than `==`; the subscript is evaluated
unconditionally and the `&` is applied to a boolean and the looked-up
value. -/
def is_user_bootstrap_message (m : Message) : Except PyErr PyVal := do
  let v ← pySubscript m.metadata.additional_metadata "instruction"
  let conj ← pyAnd (.bool (is_user_message m)) v
  return pyEq conj (.str "bootstrap_agent")

/-- Embeds `MessageFilters.is_user_launch_message` (server.py lines 48-55), same
shape as `is_user_bootstrap_message` with the string "launch_agent". -/
def is_user_launch_message (m : Message) : Except PyErr PyVal := do
  let v ← pySubscript m.metadata.additional_metadata "instruction"
  let conj ← pyAnd (.bool (is_user_message m)) v
  return pyEq conj (.str "launch_agent")

/-- The per-sender mailbox `FakeApplicationServer.message_queue`, a
`defaultdict(list)` mapping sender names to message lists. -/
abbrev Mailbox := List (String × List Message)

/-- Reading `message_queue[s]`: a `defaultdict(list)` yields `[]` for an
absent key instead of raising. -/
def mbGet (q : Mailbox) (s : String) : List Message :=
  (alGet q s).getD []

/-- Embeds `FakeApplicationServer._add_to_queue` (server.py lines 101-102):
`self.message_queue[message.metadata.sender.name].append(message)` —
reads the (lazily created) list for the sender name and appends. -/
def add_to_queue (q : Mailbox) (m : Message) : Mailbox :=
  alSet q m.metadata.sender.name (mbGet q m.metadata.sender.name ++ [m])

/-- The drain idiom of `FakeApplicationServer.boostrap_new_agent`
(server.py lines 133-134): read the queue for a sender name, then replace
it with a fresh empty list; returns the read messages and the new mailbox.
The source instantiates it at "autogpt-agent-factory"; the sender name is
a parameter, matching the spec operation `drain(senderName)`. -/
def drain (q : Mailbox) (s : String) : List Message × Mailbox :=
  (mbGet q s, alSet q s [])

/-- Python `list.pop()` with no argument: removes and returns the LAST
element; raises `IndexError` on an empty list. -/
def listPop (l : List Message) : Except PyErr (Message × List Message) :=
  match l.getLast? with
  | some x => .ok (x, l.dropLast)
  | none => .error .indexError

/-- The duck-typed response object constructed by
`FakeApplicationServer._send_message` and mutated by its callers. -/
structure FeedbackResponse where
  json_content : Message
deriving DecidableEq, Repr

/-- The queue step of `FakeApplicationServer.give_agent_feedback`
(server.py lines 142-147): after sending the feedback message it sets
`response.json = {"content": self.message_queue["autogpt-agent"].pop()}`
and then falls off the end of the coroutine, so the coroutine returns
Python `None` (modelled by the final `Option FeedbackResponse` component
being `none`) rather than the constructed response. -/
def give_agent_feedback (q : Mailbox) :
    Except PyErr (Mailbox × FeedbackResponse × Option FeedbackResponse) :=
  match listPop (mbGet q "autogpt-agent") with
  | .error e => .error e
  | .ok (top, rest) =>
      .ok (alSet q "autogpt-agent" rest, { json_content := top }, none)

/-- Python attribute state for `FakeApplicationServer.message_queue`:
`message_queue = defaultdict(list)` (server.py line 65) is a CLASS
attribute; instances are numbered and an instance may in principle shadow
it with an entry in its own attribute dictionary. Attribute lookup
`self.message_queue` consults the instance dictionary first and falls
back to the class attribute. -/
structure PyWorld where
  class_message_queue : Mailbox
  instance_message_queue_attrs : List (Nat × Mailbox)
deriving DecidableEq, Repr

/-- Attribute read `self.message_queue` through instance `i`: Python attribute
lookup, instance dictionary first, class attribute as fallback. -/
def getattr_message_queue (w : PyWorld) (i : Nat) : Mailbox :=
  match alGet w.instance_message_queue_attrs i with
  | some q => q
  | none => w.class_message_queue

/-- Embeds `FakeApplicationServer._add_to_queue` executed through instance `i`:
`self.message_queue[...]` resolves the attribute (instance dictionary
first, else the class attribute) and mutates THAT dict object in place;
no instance attribute is ever created. The source never attribute-assigns
`message_queue` on an instance (line 134 is an item assignment on the
resolved dict), so the instance-dictionary branch is never reached when
running the source. -/
def instance_add_to_queue (w : PyWorld) (i : Nat) (m : Message) : PyWorld :=
  match alGet w.instance_message_queue_attrs i with
  | some q =>
      { w with instance_message_queue_attrs :=
          alSet w.instance_message_queue_attrs i (add_to_queue q m) }
  | none => { w with class_message_queue := add_to_queue w.class_message_queue m }

/-- Broker errors. Modelled from the spec: structural errors of
`SimpleMessageBroker` operations. -/
inductive BrokerError where
  | channelNotFound
deriving DecidableEq, Repr

/-- Modelled from the spec: `SimpleMessageBroker` of
`autogpt.core.messaging.simple` (not under the sources) — named channels
plus listener registrations in registration order; each registration pairs
a channel name with a pure filter predicate and a handler acting on the
mailbox state. -/
structure SimpleMessageBroker where
  channels : List String
  listeners : List (String × (Message → Bool) × (Mailbox → Message → Mailbox))

/-- Modelled from the spec: `createChannel(name)` registers a new channel. -/
def create_message_channel (b : SimpleMessageBroker) (name : String) :
    SimpleMessageBroker :=
  { b with channels := b.channels ++ [name] }

/-- Modelled from the spec: `registerListener(channel, handler, filter)`
appends a registration to the channel's listener list; fails with
`ChannelNotFound` if the channel does not exist. -/
def register_listener (b : SimpleMessageBroker) (channel : String)
    (filter : Message → Bool) (handler : Mailbox → Message → Mailbox) :
    Except BrokerError SimpleMessageBroker :=
  if b.channels.contains channel then
    .ok { b with listeners := b.listeners ++ [(channel, filter, handler)] }
  else
    .error .channelNotFound

/-- Modelled from the spec: `Emitter` — an immutable binding of a channel
name and a sender identity. -/
structure Emitter where
  channel : String
  sender : Sender
deriving DecidableEq, Repr

/-- Modelled from the spec: `getEmitter(channel, senderName, senderRole)`;
fails with `ChannelNotFound` if the channel is absent. -/
def get_emitter (b : SimpleMessageBroker) (channel : String)
    (sender_name : String) (sender_role : Role) : Except BrokerError Emitter :=
  if b.channels.contains channel then
    .ok { channel := channel, sender := { name := sender_name, role := sender_role } }
  else
    .error .channelNotFound

/-- Modelled from the spec: the dispatch loop of `publish` — for every
registration on the channel, in registration order, evaluate the filter
and invoke the handler on a match. -/
def dispatch (ls : List (String × (Message → Bool) × (Mailbox → Message → Mailbox)))
    (channel : String) (m : Message) (q : Mailbox) : Mailbox :=
  match ls with
  | [] => q
  | (c, f, h) :: rest =>
      dispatch rest channel m (if c = channel then (if f m then h q m else q) else q)

/-- Modelled from the spec: `publish(channel, message) -> bool` — false
when the channel is absent, otherwise dispatches to every matching
listener in registration order and reports true. -/
def publish (b : SimpleMessageBroker) (channel : String) (m : Message)
    (q : Mailbox) : Bool × Mailbox :=
  if b.channels.contains channel then
    (true, dispatch b.listeners channel m q)
  else
    (false, q)

/-- Modelled from the spec: `Emitter.sendMessage(content, additionalMetadata)`
— constructs a Message with the bound sender identity and publishes it on
the bound channel. -/
def send_message (b : SimpleMessageBroker) (e : Emitter)
    (content : List (String × PyVal)) (additional : List (String × PyVal))
    (q : Mailbox) : Bool × Mailbox :=
  publish b e.channel
    { content := content
      metadata := { sender := e.sender, additional_metadata := additional } } q

/-- The end-to-end setup of the C7 scenario, performed through the broker
operations exactly as `FakeApplicationServer._get_message_broker` does for
the mailbox listener: create channel "autogpt", register the mailbox
listener with filter `is_server_message`, obtain the agent-factory
emitter. -/
def scenario_setup : Except BrokerError (SimpleMessageBroker × Emitter) := do
  let b := create_message_channel { channels := [], listeners := [] } "autogpt"
  let b ← register_listener b "autogpt" is_server_message add_to_queue
  let e ← get_emitter b "autogpt" "autogpt-agent-factory" Role.AGENT_FACTORY
  return (b, e)

theorem alGet_alSet_same {α β : Type} [DecidableEq α]
    (l : List (α × β)) (k : α) (v : β) : alGet (alSet l k v) k = some v := by
  induction l with
  | nil => simp [alGet, alSet]
  | cons hd tl ih =>
      obtain ⟨k2, v2⟩ := hd
      by_cases h : k2 = k
      · simp [alGet, alSet, h]
      · simp [alGet, alSet, h, ih]

theorem alGet_alSet_ne {α β : Type} [DecidableEq α]
    (l : List (α × β)) (k k2 : α) (v : β) (h : k2 ≠ k) :
    alGet (alSet l k v) k2 = alGet l k2 := by
  have hne : k ≠ k2 := fun hh => h hh.symm
  induction l with
  | nil => simp [alGet, alSet, hne]
  | cons hd tl ih =>
      obtain ⟨k3, v3⟩ := hd
      by_cases h3 : k3 = k
      · subst h3
        simp [alGet, alSet, hne]
      · simp [alGet, alSet, h3, ih]

theorem mbGet_alSet_same (q : Mailbox) (s : String) (v : List Message) :
    mbGet (alSet q s v) s = v := by
  simp [mbGet, alGet_alSet_same]

theorem mbGet_alSet_ne (q : Mailbox) (s t : String) (v : List Message)
    (h : t ≠ s) : mbGet (alSet q s v) t = mbGet q t := by
  simp [mbGet, alGet_alSet_ne _ _ _ _ h]

/-- C1: the claim states that for every message whose additional_metadata
lacks the key "instruction", is_user_bootstrap_message and
is_user_launch_message return false without raising. The code instead
evaluates the dict subscript unconditionally, so both filters raise
KeyError for every such message. -/
theorem c1_missing_key_raises (m : Message)
    (h : alGet m.metadata.additional_metadata "instruction" = none) :
    is_user_bootstrap_message m = .error (.keyError "instruction") ∧
    is_user_launch_message m = .error (.keyError "instruction") := by
  constructor <;>
    simp [is_user_bootstrap_message, is_user_launch_message, pySubscript, h,
      Bind.bind, Except.bind]

theorem c1_missing_key_raises_witness :
    is_user_bootstrap_message
        { content := []
          metadata := { sender := { name := "autogpt-user", role := Role.USER }
                        additional_metadata := [] } }
      = .error (.keyError "instruction") ∧
    is_user_launch_message
        { content := []
          metadata := { sender := { name := "autogpt-user", role := Role.USER }
                        additional_metadata := [] } }
      = .error (.keyError "instruction") :=
  c1_missing_key_raises _ rfl

/-- C2: the claim states that is_user_bootstrap_message returns true
exactly when the sender role is USER and additional_metadata["instruction"]
is "bootstrap_agent". Because Python parses the body as
(bool & value) == "bootstrap_agent", the code instead raises TypeError
whenever the looked-up value is a string — including on the very messages
the predicate is meant to accept. -/
theorem c2_bootstrap_raises_typeerror (m : Message) (s : String)
    (h : alGet m.metadata.additional_metadata "instruction" = some (.str s)) :
    is_user_bootstrap_message m = .error .typeError := by
  simp [is_user_bootstrap_message, pySubscript, h, pyAnd, Bind.bind, Except.bind]

/-- C2 counterexample input: a USER message carrying
additional_metadata {"instruction": "bootstrap_agent"}, which the claim
says must be accepted (true); the code raises TypeError on it. -/
theorem c2_bootstrap_raises_typeerror_witness :
    is_user_bootstrap_message
        { content := []
          metadata := { sender := { name := "autogpt-user", role := Role.USER }
                        additional_metadata := [("instruction", .str "bootstrap_agent")] } }
      = .error .typeError :=
  c2_bootstrap_raises_typeerror _ "bootstrap_agent" rfl

/-- C3: the claim states that is_user_launch_message returns true exactly
when the sender role is USER and additional_metadata["instruction"] is
"launch_agent". As with C2, the code raises TypeError whenever the
looked-up value is a string. -/
theorem c3_launch_raises_typeerror (m : Message) (s : String)
    (h : alGet m.metadata.additional_metadata "instruction" = some (.str s)) :
    is_user_launch_message m = .error .typeError := by
  simp [is_user_launch_message, pySubscript, h, pyAnd, Bind.bind, Except.bind]

/-- C3 counterexample input: a USER message carrying
additional_metadata {"instruction": "launch_agent"}, which the claim says
must be accepted (true); the code raises TypeError on it. -/
theorem c3_launch_raises_typeerror_witness :
    is_user_launch_message
        { content := []
          metadata := { sender := { name := "autogpt-user", role := Role.USER }
                        additional_metadata := [("instruction", .str "launch_agent")] } }
      = .error .typeError :=
  c3_launch_raises_typeerror _ "launch_agent" rfl

/-- C4: is_server_message is true for every message whose sender role is
AGENT or AGENT_FACTORY, and false for every message whose sender role is
USER. -/
theorem c4_is_server_message (m : Message) :
    ((m.metadata.sender.role = Role.AGENT ∨
        m.metadata.sender.role = Role.AGENT_FACTORY) →
      is_server_message m = true) ∧
    (m.metadata.sender.role = Role.USER → is_server_message m = false) := by
  constructor
  · rintro (h | h) <;>
      simp [is_server_message, is_agent_message, is_agent_factory_message, h]
  · intro h
    simp [is_server_message, is_agent_message, is_agent_factory_message, h]

theorem c4_is_server_message_witness :
    is_server_message
        { content := []
          metadata := { sender := { name := "autogpt-agent", role := Role.AGENT }
                        additional_metadata := [] } } = true ∧
    is_server_message
        { content := []
          metadata := { sender := { name := "autogpt-agent-factory",
                                    role := Role.AGENT_FACTORY }
                        additional_metadata := [] } } = true ∧
    is_server_message
        { content := []
          metadata := { sender := { name := "autogpt-user", role := Role.USER }
                        additional_metadata := [] } } = false :=
  ⟨(c4_is_server_message _).1 (Or.inl rfl),
   (c4_is_server_message _).1 (Or.inr rfl),
   (c4_is_server_message _).2 rfl⟩

/-- C5: mailbox drain is order-preserving and clearing. Starting from any
mailbox holding nothing for sender name s, appending m1 then m2 (both with
sender name s) via the mailbox listener and then draining s yields
[m1, m2] in append order; an immediately subsequent drain of s yields [];
and draining a sender name with no queued messages yields []. -/
theorem c5_drain_order_preserving_and_clearing (q : Mailbox) (s : String)
    (m1 m2 : Message) (h0 : mbGet q s = [])
    (h1 : m1.metadata.sender.name = s) (h2 : m2.metadata.sender.name = s) :
    (drain (add_to_queue (add_to_queue q m1) m2) s).1 = [m1, m2] ∧
    (drain (drain (add_to_queue (add_to_queue q m1) m2) s).2 s).1 = [] ∧
    (drain q s).1 = [] := by
  refine ⟨?_, ?_, h0⟩ <;>
    simp [drain, add_to_queue, h0, h1, h2, mbGet_alSet_same]

theorem c5_drain_order_preserving_and_clearing_witness :
    (drain
       (add_to_queue
          (add_to_queue []
            { content := [("step", .str "one")]
              metadata := { sender := { name := "agent-1", role := Role.AGENT }
                            additional_metadata := [] } })
          { content := [("step", .str "two")]
            metadata := { sender := { name := "agent-1", role := Role.AGENT }
                          additional_metadata := [] } })
       "agent-1").1
      = [{ content := [("step", .str "one")]
           metadata := { sender := { name := "agent-1", role := Role.AGENT }
                         additional_metadata := [] } },
         { content := [("step", .str "two")]
           metadata := { sender := { name := "agent-1", role := Role.AGENT }
                         additional_metadata := [] } }] :=
  (c5_drain_order_preserving_and_clearing [] "agent-1" _ _ rfl rfl rfl).1

/-- C6: the mailbox listener appends exactly the delivered message to the
queue keyed by its sender name (creating the queue lazily, since an absent
key reads as the empty list), and leaves the queue of every other sender
name unchanged. -/
theorem c6_add_to_queue_frame (q : Mailbox) (m : Message) :
    mbGet (add_to_queue q m) m.metadata.sender.name
      = mbGet q m.metadata.sender.name ++ [m] ∧
    ∀ s, s ≠ m.metadata.sender.name → mbGet (add_to_queue q m) s = mbGet q s := by
  constructor
  · simp [add_to_queue, mbGet_alSet_same]
  · intro s hs
    simp [add_to_queue, mbGet_alSet_ne _ _ _ _ hs]

theorem c6_add_to_queue_frame_witness :
    mbGet
        (add_to_queue []
          { content := []
            metadata := { sender := { name := "agent-1", role := Role.AGENT }
                          additional_metadata := [] } })
        "agent-1"
      = mbGet ([] : Mailbox) "agent-1" ++
          [{ content := []
             metadata := { sender := { name := "agent-1", role := Role.AGENT }
                           additional_metadata := [] } }] ∧
    mbGet
        (add_to_queue []
          { content := []
            metadata := { sender := { name := "agent-1", role := Role.AGENT }
                          additional_metadata := [] } })
        "agent-2"
      = mbGet ([] : Mailbox) "agent-2" :=
  ⟨(c6_add_to_queue_frame [] _).1,
   (c6_add_to_queue_frame [] _).2 "agent-2" (by decide)⟩

/-- C7: end-to-end scenario, with the broker modelled from the spec —
create channel "autogpt", register the mailbox listener with filter
is_server_message, obtain an Emitter bound to
("autogpt-agent-factory", AGENT_FACTORY), send content {"result": "ok"}
with empty additional metadata into an empty mailbox: the send reports
success and draining "autogpt-agent-factory" returns exactly one message,
whose content is {"result": "ok"}. -/
theorem c7_send_then_drain_scenario :
    scenario_setup.map (fun be =>
        let r := send_message be.1 be.2 [("result", PyVal.str "ok")] [] []
        (r.1, (drain r.2 "autogpt-agent-factory").1))
      = .ok (true,
          [{ content := [("result", PyVal.str "ok")]
             metadata := { sender := { name := "autogpt-agent-factory",
                                       role := Role.AGENT_FACTORY }
                           additional_metadata := [] } }]) := by
  rfl

/-- C8: message_queue is a class attribute shared by all
FakeApplicationServer instances. Since the source never attribute-assigns
message_queue on an instance (the hypothesis: every instance dictionary
lacks the attribute), an append performed through any instance i mutates
the class-level mapping, and the updated mapping is what any other
instance j (and the class itself) observes. -/
theorem c8_message_queue_shared (w : PyWorld) (i j : Nat) (m : Message)
    (h : w.instance_message_queue_attrs = []) :
    getattr_message_queue (instance_add_to_queue w i m) j
      = add_to_queue (getattr_message_queue w j) m ∧
    (instance_add_to_queue w i m).class_message_queue
      = add_to_queue w.class_message_queue m := by
  constructor <;> simp [getattr_message_queue, instance_add_to_queue, h, alGet]

theorem c8_message_queue_shared_witness :
    getattr_message_queue
        (instance_add_to_queue
          { class_message_queue := [], instance_message_queue_attrs := [] } 0
          { content := []
            metadata := { sender := { name := "autogpt-agent", role := Role.AGENT }
                          additional_metadata := [] } })
        1
      = add_to_queue
          (getattr_message_queue
            { class_message_queue := [], instance_message_queue_attrs := [] } 1)
          { content := []
            metadata := { sender := { name := "autogpt-agent", role := Role.AGENT }
                          additional_metadata := [] } } :=
  (c8_message_queue_shared
    { class_message_queue := [], instance_message_queue_attrs := [] } 0 1 _ rfl).1

/-- C9: the drain performed by boostrap_new_agent — reading and clearing
the "autogpt-agent-factory" entry — leaves the queue of every other
sender name unchanged. -/
theorem c9_drain_frame (q : Mailbox) (s : String)
    (h : s ≠ "autogpt-agent-factory") :
    mbGet (drain q "autogpt-agent-factory").2 s = mbGet q s := by
  simp [drain, mbGet_alSet_ne _ _ _ _ h]

theorem c9_drain_frame_witness :
    mbGet
        (drain
          [("autogpt-agent",
             [{ content := []
                metadata := { sender := { name := "autogpt-agent", role := Role.AGENT }
                              additional_metadata := [] } }])]
          "autogpt-agent-factory").2
        "autogpt-agent"
      = mbGet
          [("autogpt-agent",
             [{ content := []
                metadata := { sender := { name := "autogpt-agent", role := Role.AGENT }
                              additional_metadata := [] } }])]
          "autogpt-agent" :=
  c9_drain_frame _ "autogpt-agent" (by decide)

/-- C10: give_agent_feedback pops the LAST element of the "autogpt-agent"
queue (last-in-first-out, Python list.pop with no argument), placing it in
the constructed response; it raises IndexError when that queue is empty;
and the coroutine's return value is None (the final Option component),
not the constructed response. -/
theorem c10_give_agent_feedback_pop :
    (∀ (q : Mailbox) (ms : List Message) (m : Message),
        mbGet q "autogpt-agent" = ms ++ [m] →
        give_agent_feedback q
          = .ok (alSet q "autogpt-agent" ms, { json_content := m }, none)) ∧
    (∀ q : Mailbox, mbGet q "autogpt-agent" = [] →
        give_agent_feedback q = .error .indexError) := by
  constructor
  · intro q ms m h
    simp [give_agent_feedback, listPop, h]
  · intro q h
    simp [give_agent_feedback, listPop, h]

theorem c10_give_agent_feedback_pop_witness :
    give_agent_feedback
        [("autogpt-agent",
           [{ content := [("step", .str "one")]
              metadata := { sender := { name := "autogpt-agent", role := Role.AGENT }
                            additional_metadata := [] } },
            { content := [("step", .str "two")]
              metadata := { sender := { name := "autogpt-agent", role := Role.AGENT }
                            additional_metadata := [] } }])]
      = .ok
          (alSet
            [("autogpt-agent",
               [{ content := [("step", .str "one")]
                  metadata := { sender := { name := "autogpt-agent", role := Role.AGENT }
                                additional_metadata := [] } },
                { content := [("step", .str "two")]
                  metadata := { sender := { name := "autogpt-agent", role := Role.AGENT }
                                additional_metadata := [] } }])]
            "autogpt-agent"
            [{ content := [("step", .str "one")]
               metadata := { sender := { name := "autogpt-agent", role := Role.AGENT }
                             additional_metadata := [] } }],
           { json_content :=
              { content := [("step", .str "two")]
                metadata := { sender := { name := "autogpt-agent", role := Role.AGENT }
                              additional_metadata := [] } } },
           none) ∧
    give_agent_feedback [] = .error .indexError :=
  ⟨c10_give_agent_feedback_pop.1 _ _ _ rfl,
   c10_give_agent_feedback_pop.2 [] rfl⟩

end AutoGPT
